import Mathlib

/-!
Verification development for a chat-moderation farewell bot (single source
file `main.py`).  The Python source is shallowly embedded: Python strings
are Lean `String`s (indexed by code points, i.e. `List Char`, exactly the
semantics of Python slicing), dict fields that may be missing become
`Option`s, the SQLite `settings` table becomes a list of rows with
INSERT OR REPLACE modelled as delete-matching-then-append, and every call
into the messaging transport is an oracle recorded in a `Gateway`
structure (a `none` answer models the failure paths that the bot methods
convert into a `None` return).  Handlers are pure state transformers
`BotWorld → BotWorld × List Out`, where `Out` is the trace of outbound
gateway calls in the order the source makes them.  Python truthiness is
modelled where the source relies on it (`0`, `""`, `[]`, `{}` and `None`
are all falsy).
-/

/-! ## Message formatter (`parse_message_entities`, source lines 422-447) -/

/-- One rich-text annotation span, `{'type': …, 'offset': …, 'length': …}`.
Missing `offset`/`length` default to 0 in the source (`entity.get`), and a
missing `type` behaves like an unrecognised one (no branch taken), so plain
fields suffice. -/
structure MessageEntity where
  etype : String
  offset : Nat
  length : Nat
deriving DecidableEq, Repr

/-- Markup tag pair the source's if-chain associates to an entity type;
`none` for unrecognised types (loop body does nothing). -/
def entity_tags (t : String) : Option (List Char × List Char) :=
  if t = "bold" then some ("<b>".data, "</b>".data)
  else if t = "italic" then some ("<i>".data, "</i>".data)
  else if t = "underline" then some ("<u>".data, "</u>".data)
  else if t = "strikethrough" then some ("<s>".data, "</s>".data)
  else if t = "code" then some ("<code>".data, "</code>".data)
  else none

/-- Abstract single-wrap step: insert an open/close tag pair around the
slice `[off, off+len)`, exactly Python's
`s[:off] + o + s[off:off+len] + c + s[off+len:]` (take/drop clamp
out-of-range indices exactly as Python slices do). -/
def applyTag : Option (List Char × List Char) → List Char → Nat → Nat → List Char
  | none, s, _, _ => s
  | some (o, c), s, off, len =>
      s.take off ++ o ++ (s.drop off).take len ++ c ++ s.drop (off + len)

/-- Loop body of `parse_message_entities` (lines 431-445): the five-way
if-chain on `entity.get('type')`. -/
def wrapEntity (s : List Char) (e : MessageEntity) : List Char :=
  if e.etype = "bold" then
    s.take e.offset ++ "<b>".data ++ (s.drop e.offset).take e.length ++ "</b>".data
      ++ s.drop (e.offset + e.length)
  else if e.etype = "italic" then
    s.take e.offset ++ "<i>".data ++ (s.drop e.offset).take e.length ++ "</i>".data
      ++ s.drop (e.offset + e.length)
  else if e.etype = "underline" then
    s.take e.offset ++ "<u>".data ++ (s.drop e.offset).take e.length ++ "</u>".data
      ++ s.drop (e.offset + e.length)
  else if e.etype = "strikethrough" then
    s.take e.offset ++ "<s>".data ++ (s.drop e.offset).take e.length ++ "</s>".data
      ++ s.drop (e.offset + e.length)
  else if e.etype = "code" then
    s.take e.offset ++ "<code>".data ++ (s.drop e.offset).take e.length ++ "</code>".data
      ++ s.drop (e.offset + e.length)
  else s

/-- Sort relation of `sorted(entities, key=lambda x: x.get('offset', 0),
reverse=True)`: `a` may come before `b` iff `b.offset ≤ a.offset`. -/
def entity_desc (a b : MessageEntity) : Prop := b.offset ≤ a.offset

instance : DecidableRel entity_desc := fun _ _ => Nat.decLe _ _

instance : IsTotal MessageEntity entity_desc :=
  ⟨fun a b => Or.symm (Nat.le_total a.offset b.offset)⟩

instance : IsTrans MessageEntity entity_desc :=
  ⟨fun _ _ _ h h2 => Nat.le_trans h2 h⟩

/-- Embedding of `parse_message_entities` (lines 422-447) on code-point
lists.  `List.insertionSort` is a stable sort, like Python's `sorted`, so
equal offsets keep their original relative order. -/
def parse_message_entities (text : List Char) (entities : List MessageEntity) : List Char :=
  if entities = [] then text
  else (List.insertionSort entity_desc entities).foldl wrapEntity text

/-- Non-overlap of two spans: their half-open index ranges are disjoint. -/
def spansDisjoint (a b : MessageEntity) : Prop :=
  a.offset + a.length ≤ b.offset ∨ b.offset + b.length ≤ a.offset

instance : DecidableRel spansDisjoint := fun _ _ => instDecidableOr

/-! ## Small Python string helpers used by the handlers -/

/-- Fallible model of `tmpl.format(username=name)`, scanning left to
right: a doubled brace is the escape for a literal brace, the field
`{username}` substitutes `name`, and any other brace construct signals
the error path (`none`), standing for the exception `str.format` raises
there (for a stray or unmatched brace Python raises ValueError, for any
other field name KeyError or IndexError, so `none` is exact on those);
only valid-but-exotic uses of the `username` field itself (a conversion
such as `{username!r}` or a format spec such as `{username:>7}`, which
Python would accept) are conservatively mapped to the error path, and no
theorem below draws a conclusion in that conservative region — every
formatting hypothesis confines a theorem to templates whose brace
constructs are exactly `{{`, `}}` and `{username}`, where this model
agrees with Python character for character. -/
def pyFormatChars (name : List Char) : List Char → Option (List Char)
  | [] => some []
  | '\x7b' :: '\x7b' :: rest => (pyFormatChars name rest).map (fun r => '\x7b' :: r)
  | '\x7d' :: '\x7d' :: rest => (pyFormatChars name rest).map (fun r => '\x7d' :: r)
  | '\x7b' :: 'u' :: 's' :: 'e' :: 'r' :: 'n' :: 'a' :: 'm' :: 'e' :: '\x7d' :: rest =>
      (pyFormatChars name rest).map (fun r => name ++ r)
  | '\x7b' :: _ => none
  | '\x7d' :: _ => none
  | c :: cs => (pyFormatChars name cs).map (fun r => c :: r)

/-- String-level wrapper for `.format(username=…)`: `some` is the
formatted result, `none` the raised exception. -/
def pyFormatUsername (tmpl uname : String) : Option String :=
  (pyFormatChars uname.data tmpl.data).map String.mk

/-- Character-level body of Python's `str.title()`: an alphabetic character
is uppercased when the previous character was not alphabetic, lowercased
otherwise. -/
def titleChars : Bool → List Char → List Char
  | _, [] => []
  | prev, c :: cs =>
    (if c.isAlpha then (if prev then c.toLower else c.toUpper) else c) :: titleChars c.isAlpha cs

/-- Python `str.title()` (used in the confirmation texts).  `Char.toUpper`
and `Char.toLower` case only ASCII letters, so this is exact on the ASCII
arguments it receives here (the kind tokens `leave`, `kick`, `ban`);
non-ASCII cased letters would diverge from CPython's Unicode tables, and
no theorem conclusion depends on such an argument. -/
def pyTitle (s : String) : String := String.mk (titleChars false s.data)

/-- The exact character set CPython's `str.isspace()` accepts (and hence
`str.strip()` with no argument strips). -/
def pyIsSpace (c : Char) : Bool :=
  decide (c ∈ [' ', '\t', '\n', '\x0b', '\x0c', '\r',
    '\x1c', '\x1d', '\x1e', '\x1f', '\x85', '\xa0', '\u1680',
    '\u2000', '\u2001', '\u2002', '\u2003', '\u2004', '\u2005', '\u2006',
    '\u2007', '\u2008', '\u2009', '\u200a', '\u2028', '\u2029', '\u202f',
    '\u205f', '\u3000'])

/-- Python `str.strip()` on whitespace (both ends, Unicode set). -/
def pyStrip (s : String) : String :=
  String.mk (((s.data.dropWhile pyIsSpace).reverse.dropWhile pyIsSpace).reverse)

/-- Split on a single-character separator, Python `s.split(sep)` for a
one-character `sep` (used for `data.split('_')`). -/
def splitCh (sep : Char) : List Char → List (List Char)
  | [] => [[]]
  | c :: cs =>
    match splitCh sep cs with
    | [] => [[]]
    | h :: t => if c = sep then [] :: h :: t else (c :: h) :: t

/-- Python `data.split('_')` as a list of `String`s. -/
def split_underscore (s : String) : List String := (splitCh '_' s.data).map String.mk

/-! ## Settings store (`BotDatabase`, source lines 28-106) -/

/-- One row of the `settings` table, primary key `(chat_id, setting_type)`.
Every write the source performs stores a string `content` (possibly empty)
and an optional `image_path`. -/
structure SettingsRow where
  chat_id : Int
  setting_type : String
  content : String
  image_path : Option String
deriving DecidableEq, Repr

/-- Primary-key match used by the WHERE clauses. -/
def rowMatches (chat : Int) (mtype : String) (r : SettingsRow) : Bool :=
  decide (r.chat_id = chat ∧ r.setting_type = mtype)

/-- Embedding of `BotDatabase.set_message` (lines 63-72):
`INSERT OR REPLACE` deletes any row with the same primary key and inserts
the new row.  The Python default argument `image_path=None` is passed
explicitly at call sites here. -/
def set_message (db : List SettingsRow) (chat : Int) (mtype content : String)
    (image : Option String) : List SettingsRow :=
  db.filter (fun r => ! rowMatches chat mtype r) ++ [⟨chat, mtype, content, image⟩]

/-- Embedding of `BotDatabase.get_message` (lines 74-84): `SELECT content,
image_path … fetchone()`, `(None, None)` when no row matches. -/
def get_message (db : List SettingsRow) (chat : Int) (mtype : String) :
    Option String × Option String :=
  match db.find? (rowMatches chat mtype) with
  | some r => (some r.content, r.image_path)
  | none => (none, none)

/-- The `DELETE FROM settings WHERE chat_id = ?` executed by the
`reset_default` callback branch (lines 400-404). -/
def reset_chat_settings (db : List SettingsRow) (chat : Int) : List SettingsRow :=
  db.filter (fun r => ! decide (r.chat_id = chat))

/-! ## Default templates (`get_default_messages`, source lines 241-265) -/

/-- Default farewell template for `leave`. -/
def default_leave : String :=
  "<b>Awww… {username}, you\x27re leaving?</b>\n\nWell, it was <i>cute</i> while it lasted. Byeee~ 💋\n\nI\x27m gonna miss you sooo much~ 💔 <i>(not really)</i>\nBut don’t come back crawling and crying afterwards.😘"

/-- Default farewell template for `kick`. -/
def default_kick : String :=
  "<b>Oh? {username} got the boot? 👢</b>\n\nWell, well, well... someone couldn’t behave~ 😏\n\n<u>Bye bye~</u>\n<b>You earned it, b*tch.</b> 😘\n<i>Teehee~ 💋</i>"

/-- Default farewell template for `ban`. -/
def default_ban : String :=
  "<b>Ooopsie! Thehehe... {username} got banned?!</b> 😢\n\nI’m <i>devastated.</i> Truly.\nLike… I’m totally gonna cry about it later… maybe… not. 💅\n\n<i>Well, well... <u>that’s what happens when you don’t follow the rules~</u></i> 😤\n<b>Gonna miss you sooo much…</b>\n<i>Hihi~ 💋🖤</i> <b>no.</b> 😘💋"

/-- Embedding of `get_default_messages()` as a keyed lookup; `none` models
a `KeyError` on `[...]` access (resp. the default of `.get`). -/
def get_default_messages (k : String) : Option String :=
  if k = "leave" then some default_leave
  else if k = "kick" then some default_kick
  else if k = "ban" then some default_ban
  else none

/-! ## Conversation state, world, gateway and output trace -/

/-- The two `action` values ever stored in `bot.user_states`
(lines 374-378 and 392-396). -/
inductive UserAction where
  | edit_message
  | upload_image
deriving DecidableEq, Repr

/-- One entry of `bot.user_states` (a dict keyed by user id). -/
structure PendingState where
  action : UserAction
  message_type : String
  chat_id : Int
deriving DecidableEq, Repr

/-- Mutable process state touched by the handlers: the per-user state map,
the settings table, and the local image files written so far. -/
structure BotWorld where
  user_states : Int → Option PendingState
  db : List SettingsRow
  files : List (String × List Nat)

/-- Oracles for the messaging transport and the filesystem probe.
`member_status chat user` is the status string from `getChatMember`
(`none` for any failed lookup, lines 520-536); `download_file` is
`TelegramBot.download_file` collapsed to its `(content, filename)` result
(`none` for its `(None, None)` failure returns); `photo_ack path` is the
json of `sendPhoto` collapsed to its `ok` flag (`none` when the post
raised and the method returned `None`); `file_exists` is
`os.path.exists`. -/
structure Gateway where
  member_status : Int → Int → Option String
  download_file : String → Option (List Nat × String)
  photo_ack : String → Option Bool
  file_exists : String → Bool

/-- One outbound transport call, in source order. -/
inductive Out where
  | sendText (chat : Int) (text : String)
  | sendPhotoOut (chat : Int) (path caption : String)
  | sendKeyboard (chat : Int) (text : String) (kb : List (List (String × String)))
  | editMsg (chat : Int) (message_id : Option Int) (text : String)
      (kb : Option (List (List (String × String))))
  | answerCb (cb : Option String) (text : String)
deriving DecidableEq, Repr

/-- Keyboard with the lone back button (several handlers build it). -/
def back_keyboard : List (List (String × String)) :=
  [[("◀️ Back to Settings", "back_to_menu")]]

/-- The seven-row settings menu keyboard (lines 299-307 = 317-325). -/
def settings_menu_keyboard : List (List (String × String)) :=
  [[("📝 Edit Leave Message", "edit_leave")],
   [("👢 Edit Kick Message", "edit_kick")],
   [("🚫 Edit Ban Message", "edit_ban")],
   [("🖼️ Change Leave Image", "image_leave")],
   [("🖼️ Change Kick Image", "image_kick")],
   [("🖼️ Change Ban Image", "image_ban")],
   [("🔄 Reset to Default", "reset_default")]]

/-- Menu caption text. -/
def settings_menu_text : String :=
  "⚙️ <b>Farewell Bot Settings</b>\n\nChoose what you\x27d like to customize:"

/-! ## Inbound event shapes -/

/-- One element of a message's `photo` array. -/
structure PhotoSize where
  file_id : Option String
deriving DecidableEq, Repr

/-- The fields of an inbound `message` object the handlers probe. -/
structure InboundMessage where
  chat_id : Option Int
  from_id : Option Int
  message_id : Option Int
  text : Option String
  entities : Option (List MessageEntity)
  photo : Option (List PhotoSize)
deriving DecidableEq, Repr

/-- The `from` user of a membership transition (`old_chat_member.user`);
`none` models the falsy `{}` default of `old_member.get('user', {})`. -/
structure TgUser where
  username : Option String
  first_name : Option String
  last_name : Option String
deriving DecidableEq, Repr

/-- The fields of a `chat_member` update the handler probes. -/
structure MemberUpdate where
  old_status : Option String
  new_status : Option String
  until_date : Option Int
  user : Option TgUser
  chat_id : Option Int
deriving DecidableEq, Repr

/-- The fields of a `callback_query` update the handler probes. -/
structure CallbackUpdate where
  chat_id : Option Int
  message_id : Option Int
  from_id : Option Int
  data : Option String
  cb_id : Option String
deriving DecidableEq, Repr

/-! ## Authorization and settings menu (source lines 292-332, 520-536) -/

/-- Embedding of `is_chat_admin` (lines 520-536) given the gateway's
answer: only a successful lookup whose status is `creator` or
`administrator` passes; every failure path returns `False`. -/
def is_chat_admin (status : Option String) : Bool :=
  match status with
  | some s => decide (s ∈ ["creator", "administrator"])
  | none => false

/-- Embedding of `handle_settings_command` (lines 292-313). -/
def handle_settings_command (g : Gateway) (w : BotWorld) (chat_id user_id : Int)
    (_message_id : Option Int) : BotWorld × List Out :=
  if ! is_chat_admin (g.member_status chat_id user_id) then
    (w, [Out.sendText chat_id "❌ Only group administrators can access settings."])
  else
    (w, [Out.sendKeyboard chat_id settings_menu_text settings_menu_keyboard])

/-- Embedding of `handle_settings_command_edit` (lines 315-332): same menu,
but edits the existing message in place. -/
def handle_settings_command_edit (w : BotWorld) (chat_id : Int)
    (message_id : Option Int) : BotWorld × List Out :=
  (w, [Out.editMsg chat_id message_id settings_menu_text (some settings_menu_keyboard)])

/-! ## Callback handler (source lines 334-420) -/

/-- Prompt rendered by the `edit_*` branch (line 369). -/
def edit_prompt (message_type current_message : String) : String :=
  "📝 <b>Edit " ++ pyTitle message_type ++ " Message</b>\n\n<i>Current message:</i>\n"
    ++ current_message ++ "\n\n💬 Send me the new message you want to use:"

/-- Prompt rendered by the `image_*` branch (line 387). -/
def image_prompt (message_type : String) : String :=
  "🖼️ <b>Change " ++ pyTitle message_type ++ " Image</b>\n\n📷 Send me a photo that you want to use for "
    ++ message_type ++ " messages.\n\nSupported formats: JPG, PNG, GIF"

/-- Confirmation rendered by the `reset_default` branch (line 411). -/
def reset_confirm_text : String :=
  "✅ <b>Settings Reset</b>\n\nAll messages and images have been reset to default values."

/-- Embedding of `handle_callback_query` (lines 334-420).  The guard
`if not chat_id or not user_id` treats a missing id and the id 0 alike
(Python truthiness), so both collapse through `getD 0`. -/
def handle_callback_query (g : Gateway) (w : BotWorld) (cb : CallbackUpdate) :
    BotWorld × List Out :=
  let chat := cb.chat_id.getD 0
  let user := cb.from_id.getD 0
  if chat = 0 ∨ user = 0 then (w, [])
  else
    let ans := Out.answerCb cb.cb_id ""
    if ! is_chat_admin (g.member_status chat user) then
      (w, [ans, Out.answerCb cb.cb_id "Only admins can change settings!"])
    else
      let data := cb.data.getD ""
      if "edit_".data.isPrefixOf data.data then
        let message_type := (split_underscore data).getD 1 ""
        let current_message :=
          match (get_message w.db chat message_type).1 with
          | some m => if m ≠ "" then m else (get_default_messages message_type).getD "Default message"
          | none => (get_default_messages message_type).getD "Default message"
        ({ w with user_states := fun v =>
              if v = user then some ⟨UserAction.edit_message, message_type, chat⟩
              else w.user_states v },
         [ans, Out.editMsg chat cb.message_id (edit_prompt message_type current_message)
            (some back_keyboard)])
      else if "image_".data.isPrefixOf data.data then
        let message_type := (split_underscore data).getD 1 ""
        ({ w with user_states := fun v =>
              if v = user then some ⟨UserAction.upload_image, message_type, chat⟩
              else w.user_states v },
         [ans, Out.editMsg chat cb.message_id (image_prompt message_type) (some back_keyboard)])
      else if data = "reset_default" then
        ({ w with db := reset_chat_settings w.db chat },
         [ans, Out.editMsg chat cb.message_id reset_confirm_text (some back_keyboard)])
      else if data = "back_to_menu" then
        (w, [ans, Out.editMsg chat cb.message_id settings_menu_text (some settings_menu_keyboard)])
      else (w, [ans])

/-! ## Pending-input handler (source lines 449-518) -/

/-- The `del bot.user_states[user_id]` at the end of a branch. -/
def clear_state (st : Int → Option PendingState) (u : Int) : Int → Option PendingState :=
  fun v => if v = u then none else st v

/-- Confirmation sent after a template edit (line 469). -/
def updated_confirm (message_type formatted : String) : String :=
  "✅ <b>" ++ pyTitle message_type ++ " message updated!</b>\n\n<i>New message:</i>\n" ++ formatted

/-- Confirmation sent after an image change (line 504). -/
def image_confirm (message_type : String) : String :=
  "✅ <b>" ++ pyTitle message_type ++ " image updated!</b>\n\n📷 New image has been saved and will be used for "
    ++ message_type ++ " messages."

/-- Embedding of `handle_user_input` (lines 449-518).  When the message
carries `photo: []`, the source's `message['photo'][-1]` raises an
IndexError before any effect; the function's blanket `except` swallows it,
so the embedding returns the world unchanged on that path. -/
def handle_user_input (g : Gateway) (w : BotWorld) (chat_id user_id : Int)
    (text : String) (msg : InboundMessage) : BotWorld × List Out :=
  match w.user_states user_id with
  | none => (w, [])
  | some st =>
    match st.action with
    | UserAction.edit_message =>
      let formatted := String.mk (parse_message_entities text.data (msg.entities.getD []))
      ({ w with db := set_message w.db chat_id st.message_type formatted none,
                user_states := clear_state w.user_states user_id },
       [Out.sendKeyboard chat_id (updated_confirm st.message_type formatted) back_keyboard])
    | UserAction.upload_image =>
      match msg.photo with
      | none =>
        ({ w with user_states := clear_state w.user_states user_id },
         [Out.sendText chat_id "❌ Please send a photo, not text."])
      | some photos =>
        match photos.getLast? with
        | none => (w, [])
        | some photo =>
          match photo.file_id with
          | some fid =>
            if fid ≠ "" then
              match g.download_file fid with
              | some (file_content, filename) =>
                if file_content ≠ [] then
                  let image_path :=
                    "images/" ++ st.message_type ++ "_" ++ toString chat_id ++ "_" ++ filename
                  let content :=
                    match (get_message w.db chat_id st.message_type).1 with
                    | some m =>
                      if m ≠ "" then m else (get_default_messages st.message_type).getD ""
                    | none => (get_default_messages st.message_type).getD ""
                  ({ w with files := w.files ++ [(image_path, file_content)],
                            db := set_message w.db chat_id st.message_type content (some image_path),
                            user_states := clear_state w.user_states user_id },
                   [Out.sendKeyboard chat_id (image_confirm st.message_type) back_keyboard])
                else
                  ({ w with user_states := clear_state w.user_states user_id },
                   [Out.sendText chat_id "❌ Failed to download image. Please try again."])
              | none =>
                ({ w with user_states := clear_state w.user_states user_id },
                 [Out.sendText chat_id "❌ Failed to download image. Please try again."])
            else
              ({ w with user_states := clear_state w.user_states user_id },
               [Out.sendText chat_id "❌ No image found. Please send a photo."])
          | none =>
            ({ w with user_states := clear_state w.user_states user_id },
             [Out.sendText chat_id "❌ No image found. Please send a photo."])

/-! ## Message router (source lines 267-290) -/

/-- Embedding of `handle_message` (lines 267-290). -/
def handle_message (g : Gateway) (w : BotWorld) (msg : InboundMessage) :
    BotWorld × List Out :=
  let chat := msg.chat_id.getD 0
  let user := msg.from_id.getD 0
  if chat = 0 ∨ user = 0 then (w, [])
  else
    let text := msg.text.getD ""
    if text = "/edit" ∨ text = "/edit@Yukira" then
      handle_settings_command g w chat user msg.message_id
    else if (w.user_states user).isSome then
      handle_user_input g w chat user text msg
    else (w, [])

/-! ## Membership-change classifier and notifier (source lines 538-616) -/

/-- Prior-member statuses guarded at line 549. -/
def member_statuses : List String := ["member", "administrator", "creator"]

/-- Terminal statuses guarded at line 553. -/
def gone_statuses : List String := ["left", "kicked", "banned"]

/-- Bool membership test of an optional status in a status list; a missing
status (`None`) is in no list. -/
def status_in (s : Option String) (l : List String) : Bool :=
  match s with
  | some v => decide (v ∈ l)
  | none => false

/-- Classification core of `handle_chat_member_update` (lines 549-573):
the two status guards and the `message_type` computation, including the
`until_date` ban heuristic and the `kick` fallback. -/
def classify_transition (old_status new_status : Option String)
    (until_date : Option Int) : Option String :=
  if ! status_in old_status member_statuses then none
  else if ! status_in new_status gone_statuses then none
  else if new_status = some "left" then some "leave"
  else if new_status = some "kicked" then
    (if until_date.getD 0 = 0 ∨ until_date.getD 0 > 2147483647 then some "ban"
     else some "kick")
  else some "kick"

/-- Display-name resolution (lines 576-582): prefer `@handle`, else the
stripped `first last`.  An empty `username` string is falsy and falls
back, like the source's `if username:`. -/
def resolve_username (u : TgUser) : String :=
  let fallback := pyStrip ((u.first_name.getD "") ++ " " ++ (u.last_name.getD ""))
  match u.username with
  | some un => if un ≠ "" then "@" ++ un else fallback
  | none => fallback

/-- The fixed shared fallback image (line 604). -/
def default_image_path : String := "assets/farewell_anime.svg"

/-- Success test on a `sendPhoto` call: `result and result.get('ok')`. -/
def photo_ok (g : Gateway) (path : String) : Bool := g.photo_ack path = some true

/-- Fallback tail of the delivery chain (lines 602-613): try the shared
default image if it exists on disk, then plain text if nothing was
acknowledged. -/
def deliver_fallback (g : Gateway) (chat : Int) (caption : String) : List Out :=
  if g.file_exists default_image_path then
    if photo_ok g default_image_path then [Out.sendPhotoOut chat default_image_path caption]
    else [Out.sendPhotoOut chat default_image_path caption, Out.sendText chat caption]
  else [Out.sendText chat caption]

/-- Delivery chain of the notifier (lines 593-613): custom image first
(when truthy and on disk), then the shared fallback image, then plain
text; a send counts only when the gateway acknowledged it. -/
def deliver_farewell (g : Gateway) (chat : Int) (custom_image : Option String)
    (caption : String) : List Out :=
  match custom_image with
  | some ci =>
    if ci ≠ "" ∧ g.file_exists ci then
      if photo_ok g ci then [Out.sendPhotoOut chat ci caption]
      else Out.sendPhotoOut chat ci caption :: deliver_fallback g chat caption
    else deliver_fallback g chat caption
  | none => deliver_fallback g chat caption

/-- Embedding of `handle_chat_member_update` (lines 538-616).  The pure
classification is factored through `classify_transition`; the `user`/
`chat_id` presence guard of line 557 commutes with it.  A falsy chat id
(0 or missing) returns early.  The caption computation is fallible for
two reasons the source's blanket `except` swallows before any send:
`get_default_messages()[message_type]` raises a KeyError when the key is
absent, and `.format(username=…)` raises on a malformed template (see
`pyFormatChars`); both paths yield an empty trace, exactly as the real
handler then sends nothing. -/
def handle_chat_member_update (g : Gateway) (w : BotWorld) (upd : MemberUpdate) :
    BotWorld × List Out :=
  match classify_transition upd.old_status upd.new_status upd.until_date with
  | none => (w, [])
  | some message_type =>
    match upd.user, upd.chat_id with
    | some user, some chat =>
      if chat = 0 then (w, [])
      else
        let uname := resolve_username user
        let row := get_message w.db chat message_type
        let caption? : Option String :=
          match row.1 with
          | some m =>
            if m ≠ "" then pyFormatUsername m uname
            else (get_default_messages message_type).bind (fun d => pyFormatUsername d uname)
          | none => (get_default_messages message_type).bind (fun d => pyFormatUsername d uname)
        match caption? with
        | none => (w, [])
        | some caption => (w, deliver_farewell g chat row.2 caption)
    | _, _ => (w, [])

/-! ## Claim-support definitions -/

/-- Key uniqueness of the settings table: no two rows share the primary
key `(chat_id, setting_type)`. -/
def RowKeyUnique (db : List SettingsRow) : Prop :=
  db.Pairwise (fun r s => ¬(r.chat_id = s.chat_id ∧ r.setting_type = s.setting_type))

/-- Modelled from the spec's words, for comparison against the code's
resolution in claim C3: the effective template is the custom one whenever
a row is present, else the default. -/
def spec_effective_template (custom : Option String) (dflt : String) : String :=
  custom.getD dflt

/-- Decidable occurrence check: does `block` occur contiguously in `l`? -/
def containsBlock (block l : List Char) : Bool :=
  (List.range (l.length + 1)).any (fun i => block.isPrefixOf (l.drop i))

/-! ## Store lemmas shared by several claims -/

/-- After an upsert, a lookup on the written key returns exactly the new
row's content and image. -/
theorem get_set_same (db : List SettingsRow) (chat : Int) (k t : String)
    (img : Option String) :
    get_message (set_message db chat k t img) chat k = (some t, img) := by
  unfold get_message set_message
  rw [List.find?_append]
  have h1 : (db.filter (fun r => ! rowMatches chat k r)).find? (rowMatches chat k) = none := by
    rw [List.find?_eq_none]
    intro r hr
    have h2 := (List.mem_filter.mp hr).2
    simp only [Bool.not_eq_true'] at h2
    simp [h2]
  rw [h1]
  simp [List.find?, rowMatches]

/-- A lookup with no matching row returns `(None, None)`. -/
theorem get_message_no_row (db : List SettingsRow) (chat : Int) (k : String)
    (h : ∀ r ∈ db, ¬(r.chat_id = chat ∧ r.setting_type = k)) :
    get_message db chat k = (none, none) := by
  unfold get_message
  have h1 : db.find? (rowMatches chat k) = none := by
    rw [List.find?_eq_none]
    intro r hr
    simp only [rowMatches, Bool.not_eq_true, decide_eq_false_iff_not]
    exact h r hr
  rw [h1]

/-- Filtering by a predicate that every `p`-match satisfies does not
change a `find?` by `p`. -/
theorem find?_filter_comm {α : Type} (p q : α → Bool) (l : List α)
    (h : ∀ a, p a = true → q a = true) :
    (l.filter q).find? p = l.find? p := by
  induction l with
  | nil => rfl
  | cons a t ih =>
    rw [List.filter_cons]
    by_cases hq : q a = true
    · rw [if_pos hq]
      cases hpa : p a
      · simp [List.find?_cons, hpa, ih]
      · simp [List.find?_cons, hpa]
    · rw [if_neg hq]
      have hpa : p a = false := by
        cases hpa : p a
        · rfl
        · exact absurd (h a hpa) hq
      simp [List.find?_cons, hpa, ih]

/-- Deleting all rows of one chat leaves lookups of that chat empty. -/
theorem get_reset_same (db : List SettingsRow) (chat : Int) (k : String) :
    get_message (reset_chat_settings db chat) chat k = (none, none) := by
  apply get_message_no_row
  intro r hr
  have h2 := (List.mem_filter.mp hr).2
  simp only [Bool.not_eq_true', decide_eq_false_iff_not] at h2
  intro hc
  exact h2 hc.1

/-- Deleting all rows of one chat leaves lookups of other chats intact. -/
theorem get_reset_other (db : List SettingsRow) (chat c' : Int) (k : String)
    (h : c' ≠ chat) :
    get_message (reset_chat_settings db chat) c' k = get_message db c' k := by
  unfold get_message reset_chat_settings
  rw [find?_filter_comm]
  intro r hr
  simp only [rowMatches, decide_eq_true_eq] at hr
  simp [hr.1, h]

/-- An upsert preserves key uniqueness of the settings table. -/
theorem set_message_key_unique (db : List SettingsRow) (chat : Int)
    (k t : String) (img : Option String) (h : RowKeyUnique db) :
    RowKeyUnique (set_message db chat k t img) := by
  unfold RowKeyUnique set_message
  rw [List.pairwise_append]
  refine ⟨h.sublist (List.filter_sublist db), List.pairwise_singleton _ _, ?_⟩
  intro a ha b hb
  have h2 := (List.mem_filter.mp ha).2
  simp only [Bool.not_eq_true', rowMatches, decide_eq_false_iff_not] at h2
  rcases List.mem_singleton.mp hb with rfl
  exact h2

/-! ## Claim theorems -/

/-- C1: the classifier ignores transitions whose `old_status` is not a
prior-member status; for prior members it maps `left` to `leave`, `kicked`
to `ban` when `until_date` is 0 or above the 32-bit signed maximum and to
`kick` otherwise, any other terminal status to the `kick` fallback, and it
produces no event for non-terminal new statuses. -/
theorem classifier_rules (old new : String) (u : Int) :
    (old ∉ member_statuses →
      classify_transition (some old) (some new) (some u) = none)
    ∧ (old ∈ member_statuses → new = "left" →
      classify_transition (some old) (some new) (some u) = some "leave")
    ∧ (old ∈ member_statuses → new = "kicked" →
      classify_transition (some old) (some new) (some u) =
        some (if u = 0 ∨ u > 2147483647 then "ban" else "kick"))
    ∧ (old ∈ member_statuses → new ∈ gone_statuses → new ≠ "left" → new ≠ "kicked" →
      classify_transition (some old) (some new) (some u) = some "kick")
    ∧ (old ∈ member_statuses → new ∉ gone_statuses →
      classify_transition (some old) (some new) (some u) = none) := by
  refine ⟨?_, ?_, ?_, ?_, ?_⟩
  · intro h
    simp [classify_transition, status_in, h]
  · intro hm hn
    subst hn
    simp [classify_transition, status_in, hm, gone_statuses]
  · intro hm hn
    subst hn
    by_cases hc : u = 0 ∨ u > 2147483647
    · simp [classify_transition, status_in, hm, gone_statuses, hc]
    · simp [classify_transition, status_in, hm, gone_statuses, hc]
  · intro hm hg h1 h2
    simp only [gone_statuses, List.mem_cons, List.not_mem_nil, or_false] at hg
    rcases hg with rfl | rfl | rfl
    · exact absurd rfl h1
    · exact absurd rfl h2
    · simp [classify_transition, status_in, hm, gone_statuses]
  · intro hm hg
    simp [classify_transition, status_in, hm, hg]

/-- Witness for C1 at a concrete bounded-restriction kick. -/
theorem classifier_rules_witness :
    classify_transition (some "member") (some "kicked") (some 1700000000) = some "kick" := by
  have h := (classifier_rules "member" "kicked" 1700000000).2.2.1 (by decide) rfl
  rw [h]
  decide

/-- C7: the settings store round-trips — a `set` followed by a `get` on
the same `(chat, kind)` key returns exactly the written template with an
absent image, and a `get` with no stored row returns `(absent, absent)`. -/
theorem settings_roundtrip :
    (∀ (db : List SettingsRow) (chat : Int) (kind tmpl : String),
      get_message (set_message db chat kind tmpl none) chat kind = (some tmpl, none))
    ∧ (∀ (db : List SettingsRow) (chat : Int) (kind : String),
      (∀ r ∈ db, ¬(r.chat_id = chat ∧ r.setting_type = kind)) →
      get_message db chat kind = (none, none)) :=
  ⟨fun db chat kind tmpl => get_set_same db chat kind tmpl none,
   fun db chat kind h => get_message_no_row db chat kind h⟩

/-- Witness for C7 at a concrete store. -/
theorem settings_roundtrip_witness :
    get_message (set_message [⟨1, "leave", "old", some "img"⟩] 1 "leave" "X" none) 1 "leave" =
      (some "X", none)
    ∧ get_message [⟨(2 : Int), "kick", "y", none⟩] 1 "leave" = (none, none) :=
  ⟨settings_roundtrip.1 [⟨1, "leave", "old", some "img"⟩] 1 "leave" "X",
   settings_roundtrip.2 [⟨2, "kick", "y", none⟩] 1 "leave" (by decide)⟩

/-- C8: after the `reset_default` callback of an admin, every lookup for
that chat returns `(absent, absent)` for every kind, while rows of other
chats are untouched. -/
theorem reset_clears_chat (g : Gateway) (w : BotWorld) (chat user : Int)
    (mid : Option Int) (cbid : Option String)
    (hc0 : chat ≠ 0) (hu0 : user ≠ 0)
    (hadmin : is_chat_admin (g.member_status chat user) = true) :
    (∀ kind, get_message
      (handle_callback_query g w ⟨some chat, mid, some user, some "reset_default", cbid⟩).1.db
      chat kind = (none, none))
    ∧ (∀ c' kind, c' ≠ chat → get_message
      (handle_callback_query g w ⟨some chat, mid, some user, some "reset_default", cbid⟩).1.db
      c' kind = get_message w.db c' kind) := by
  have hred : (handle_callback_query g w ⟨some chat, mid, some user, some "reset_default", cbid⟩).1 =
      { w with db := reset_chat_settings w.db chat } := by
    unfold handle_callback_query
    simp only [Option.getD_some]
    rw [if_neg (by simp [hc0, hu0])]
    rw [hadmin]
    simp only [Bool.not_true, Bool.false_eq_true, if_false]
    rw [if_neg (by decide), if_neg (by decide)]
    simp
  rw [hred]
  exact ⟨fun kind => get_reset_same w.db chat kind,
         fun c' kind h => get_reset_other w.db chat c' kind h⟩

/-- Witness for C8 at a concrete store holding rows of two chats. -/
theorem reset_clears_chat_witness :
    get_message
      (handle_callback_query
        ⟨fun _ _ => some "administrator", fun _ => none, fun _ => none, fun _ => false⟩
        ⟨fun _ => none, [⟨1, "leave", "X", some "i"⟩, ⟨2, "ban", "Y", none⟩], []⟩
        ⟨some 1, none, some 7, some "reset_default", none⟩).1.db
      1 "leave" = (none, none)
    ∧ get_message
      (handle_callback_query
        ⟨fun _ _ => some "administrator", fun _ => none, fun _ => none, fun _ => false⟩
        ⟨fun _ => none, [⟨1, "leave", "X", some "i"⟩, ⟨2, "ban", "Y", none⟩], []⟩
        ⟨some 1, none, some 7, some "reset_default", none⟩).1.db
      2 "ban" = get_message [⟨1, "leave", "X", some "i"⟩, ⟨2, "ban", "Y", none⟩] 2 "ban" := by
  have h := reset_clears_chat
    ⟨fun _ _ => some "administrator", fun _ => none, fun _ => none, fun _ => false⟩
    ⟨fun _ => none, [⟨1, "leave", "X", some "i"⟩, ⟨2, "ban", "Y", none⟩], []⟩
    1 7 none none (by decide) (by decide) (by decide)
  exact ⟨h.1 "leave", h.2 2 "ban" (by decide)⟩

/-- C9: the settings command authorizes by a live status lookup that
passes exactly for `creator` or `administrator`; on pass it renders the
seven-action menu and touches no state, on fail it sends a denial notice,
renders no menu, and touches no state. -/
theorem settings_command_menu (g : Gateway) (w : BotWorld) (chat user : Int)
    (mid : Option Int) :
    (is_chat_admin (g.member_status chat user) = true ↔
      g.member_status chat user = some "creator"
      ∨ g.member_status chat user = some "administrator")
    ∧ (is_chat_admin (g.member_status chat user) = true →
      handle_settings_command g w chat user mid =
        (w, [Out.sendKeyboard chat settings_menu_text settings_menu_keyboard])
      ∧ settings_menu_keyboard.map (fun row => row.map Prod.snd) =
        [["edit_leave"], ["edit_kick"], ["edit_ban"],
         ["image_leave"], ["image_kick"], ["image_ban"], ["reset_default"]]
      ∧ settings_menu_keyboard.length = 7)
    ∧ (is_chat_admin (g.member_status chat user) = false →
      handle_settings_command g w chat user mid =
        (w, [Out.sendText chat "❌ Only group administrators can access settings."])) := by
  refine ⟨?_, ?_, ?_⟩
  · cases hs : g.member_status chat user with
    | none => simp [is_chat_admin]
    | some s => simp [is_chat_admin]
  · intro hpass
    unfold handle_settings_command
    rw [hpass]
    exact ⟨rfl, by decide, by decide⟩
  · intro hfail
    unfold handle_settings_command
    rw [hfail]
    rfl

/-- Witness for C9: a creator passes, a plain member is denied. -/
theorem settings_command_menu_witness :
    handle_settings_command ⟨fun _ _ => some "creator", fun _ => none, fun _ => none, fun _ => false⟩
      ⟨fun _ => none, [], []⟩ 1 7 none =
      (⟨fun _ => none, [], []⟩, [Out.sendKeyboard 1 settings_menu_text settings_menu_keyboard])
    ∧ handle_settings_command ⟨fun _ _ => some "member", fun _ => none, fun _ => none, fun _ => false⟩
      ⟨fun _ => none, [], []⟩ 1 7 none =
      (⟨fun _ => none, [], []⟩,
       [Out.sendText 1 "❌ Only group administrators can access settings."]) :=
  ⟨((settings_command_menu
      ⟨fun _ _ => some "creator", fun _ => none, fun _ => none, fun _ => false⟩
      ⟨fun _ => none, [], []⟩ 1 7 none).2.1 (by decide)).1,
   (settings_command_menu
      ⟨fun _ _ => some "member", fun _ => none, fun _ => none, fun _ => false⟩
      ⟨fun _ => none, [], []⟩ 1 7 none).2.2 (by decide)⟩

/-- C10: a message with no text field (e.g. a photo) consumed in
awaiting-text state is stored as the empty-string template with the image
reference cleared, and the pending state is cleared. -/
theorem no_text_consumed_as_empty_template (g : Gateway) (w : BotWorld)
    (chat user schat : Int) (kind : String) (mid : Option Int)
    (ph : Option (List PhotoSize))
    (hc0 : chat ≠ 0) (hu0 : user ≠ 0)
    (hst : w.user_states user = some ⟨UserAction.edit_message, kind, schat⟩) :
    get_message (handle_message g w ⟨some chat, some user, mid, none, none, ph⟩).1.db
      chat kind = (some "", none)
    ∧ (handle_message g w ⟨some chat, some user, mid, none, none, ph⟩).1.user_states user
      = none := by
  have hred : handle_message g w ⟨some chat, some user, mid, none, none, ph⟩ =
      handle_user_input g w chat user "" ⟨some chat, some user, mid, none, none, ph⟩ := by
    unfold handle_message
    simp only [Option.getD_some, Option.getD_none]
    rw [if_neg (by simp [hc0, hu0]), if_neg (by decide), if_pos (by rw [hst]; rfl)]
  rw [hred]
  unfold handle_user_input
  rw [hst]
  simp only []
  constructor
  · have : String.mk (parse_message_entities ("".data)
        ((none : Option (List MessageEntity)).getD [])) = "" := by decide
    rw [this]
    exact get_set_same w.db chat kind "" none
  · simp [clear_state]

/-- Witness for C10 on a concrete world. -/
theorem no_text_consumed_as_empty_template_witness :
    get_message
      (handle_message ⟨fun _ _ => none, fun _ => none, fun _ => none, fun _ => false⟩
        ⟨fun v => if v = 7 then some ⟨UserAction.edit_message, "leave", 1⟩ else none,
         [⟨1, "leave", "old", some "img"⟩], []⟩
        ⟨some 1, some 7, none, none, none, some [⟨some "f"⟩]⟩).1.db 1 "leave" =
      (some "", none) :=
  (no_text_consumed_as_empty_template
    ⟨fun _ _ => none, fun _ => none, fun _ => none, fun _ => false⟩
    ⟨fun v => if v = 7 then some ⟨UserAction.edit_message, "leave", 1⟩ else none,
     [⟨1, "leave", "old", some "img"⟩], []⟩
    1 7 1 "leave" none (some [⟨some "f"⟩]) (by decide) (by decide) (by decide)).1

/-- C5: consuming a template edit in awaiting-text state upserts the
whole `(chat, kind)` row — the new template is stored, the image reference
comes out absent even if one was stored before — and key uniqueness of
the table is preserved. -/
theorem edit_write_replaces_row (g : Gateway) (w : BotWorld) (chat user schat : Int)
    (kind text : String) (msg : InboundMessage)
    (hst : w.user_states user = some ⟨UserAction.edit_message, kind, schat⟩) :
    get_message (handle_user_input g w chat user text msg).1.db chat kind =
      (some (String.mk (parse_message_entities text.data (msg.entities.getD []))), none)
    ∧ (RowKeyUnique w.db → RowKeyUnique (handle_user_input g w chat user text msg).1.db) := by
  unfold handle_user_input
  rw [hst]
  simp only []
  exact ⟨get_set_same w.db chat kind _ none,
         fun h => set_message_key_unique w.db chat kind _ none h⟩

/-- Witness for C5: the prior image reference of the row is dropped. -/
theorem edit_write_replaces_row_witness :
    get_message
      (handle_user_input ⟨fun _ _ => none, fun _ => none, fun _ => none, fun _ => false⟩
        ⟨fun v => if v = 7 then some ⟨UserAction.edit_message, "kick", 1⟩ else none,
         [⟨1, "kick", "old", some "images/kick_1_a.jpg"⟩], []⟩
        1 7 "new text" ⟨some 1, some 7, none, some "new text", none, none⟩).1.db 1 "kick" =
      (some "new text", none) := by
  have h := (edit_write_replaces_row
    ⟨fun _ _ => none, fun _ => none, fun _ => none, fun _ => false⟩
    ⟨fun v => if v = 7 then some ⟨UserAction.edit_message, "kick", 1⟩ else none,
     [⟨1, "kick", "old", some "images/kick_1_a.jpg"⟩], []⟩
    1 7 1 "kick" "new text" ⟨some 1, some 7, none, some "new text", none, none⟩ (by decide)).1
  rw [h]
  decide

/-- C2 (amended): consuming an input with a pending state clears the state
in every completed branch — success or failure of the downstream action —
except the one aborted path where a photo-mode message carries an empty
photo list (the source raises on `photo[-1]` and its catch-all skips the
clear); with no pending state, consuming is a no-op. -/
theorem consume_clears_state (g : Gateway) (w : BotWorld) (chat user : Int)
    (text : String) (msg : InboundMessage) :
    (∀ st, w.user_states user = some st →
      ¬(st.action = UserAction.upload_image ∧ msg.photo = some []) →
      (handle_user_input g w chat user text msg).1.user_states user = none)
    ∧ (w.user_states user = none →
      handle_user_input g w chat user text msg = (w, [])) := by
  constructor
  · intro st hst hne
    unfold handle_user_input
    rw [hst]
    rcases st with ⟨act, kind, schat⟩
    cases act with
    | edit_message => simp [clear_state]
    | upload_image =>
      simp only [true_and] at hne
      cases hph : msg.photo with
      | none => simp [clear_state]
      | some photos =>
        cases photos with
        | nil => exact absurd hph hne
        | cons p ps =>
          dsimp only
          have hlast : (p :: ps).getLast? = some ((p :: ps).getLast (by simp)) :=
            List.getLast?_eq_getLast _ _
          rw [hlast]
          dsimp only
          cases hfid : ((p :: ps).getLast (by simp)).file_id with
          | none => simp [clear_state]
          | some fid =>
            dsimp only
            by_cases hf0 : fid = ""
            · simp [hf0, clear_state]
            · rw [if_pos hf0]
              cases hdl : g.download_file fid with
              | none => simp [clear_state]
              | some pair =>
                rcases pair with ⟨content, fname⟩
                dsimp only
                by_cases hc : content = []
                · simp [hc, clear_state]
                · rw [if_pos hc]
                  simp [clear_state]
  · intro h
    unfold handle_user_input
    rw [h]

/-- Witness for C2 on a failed download: the state is still cleared. -/
theorem consume_clears_state_witness :
    (handle_user_input ⟨fun _ _ => none, fun _ => none, fun _ => none, fun _ => false⟩
      ⟨fun v => if v = 7 then some ⟨UserAction.upload_image, "leave", 1⟩ else none, [], []⟩
      1 7 "" ⟨some 1, some 7, none, none, none, some [⟨some "fid"⟩]⟩).1.user_states 7 =
      none :=
  (consume_clears_state ⟨fun _ _ => none, fun _ => none, fun _ => none, fun _ => false⟩
    ⟨fun v => if v = 7 then some ⟨UserAction.upload_image, "leave", 1⟩ else none, [], []⟩
    1 7 "" ⟨some 1, some 7, none, none, none, some [⟨some "fid"⟩]⟩).1
    ⟨UserAction.upload_image, "leave", 1⟩ (by decide) (by decide)

/-- Counterexample for C2 as stated: a photo-mode input whose photo list
is present but empty is consumed without clearing the state (the source's
`message['photo'][-1]` raises and the blanket `except` swallows it), so
the clearing is not unconditional. -/
theorem consume_empty_photo_keeps_state :
    (handle_user_input ⟨fun _ _ => none, fun _ => none, fun _ => none, fun _ => false⟩
      ⟨fun v => if v = 7 then some ⟨UserAction.upload_image, "leave", 1⟩ else none, [], []⟩
      1 7 "" ⟨some 1, some 7, none, none, none, some []⟩).1.user_states 7 =
      some ⟨UserAction.upload_image, "leave", 1⟩ := by decide

/-- C6 (amended): a successful photo consume in awaiting-photo state
writes the image bytes to a file named from the kind, the chat and the
original filename, and the settings write keeps the previously stored
template when one existed and is non-empty (else the default template for
that kind) together with the new image reference; the state is cleared. -/
theorem photo_consume_preserves_template (g : Gateway) (w : BotWorld)
    (chat user schat : Int) (kind text fid fname dflt : String)
    (msg : InboundMessage) (photos : List PhotoSize) (photo : PhotoSize)
    (bytes : List Nat)
    (hst : w.user_states user = some ⟨UserAction.upload_image, kind, schat⟩)
    (hph : msg.photo = some photos)
    (hlast : photos.getLast? = some photo)
    (hfid : photo.file_id = some fid) (hfid0 : fid ≠ "")
    (hdl : g.download_file fid = some (bytes, fname)) (hbytes : bytes ≠ [])
    (hdflt : get_default_messages kind = some dflt) :
    get_message (handle_user_input g w chat user text msg).1.db chat kind =
      (some (match (get_message w.db chat kind).1 with
             | some m => if m = "" then dflt else m
             | none => dflt),
       some ("images/" ++ kind ++ "_" ++ toString chat ++ "_" ++ fname))
    ∧ (handle_user_input g w chat user text msg).1.files =
        w.files ++ [("images/" ++ kind ++ "_" ++ toString chat ++ "_" ++ fname, bytes)]
    ∧ (handle_user_input g w chat user text msg).1.user_states user = none := by
  have hred : handle_user_input g w chat user text msg =
      ({ w with
          files := w.files ++ [("images/" ++ kind ++ "_" ++ toString chat ++ "_" ++ fname, bytes)],
          db := set_message w.db chat kind
            (match (get_message w.db chat kind).1 with
             | some m => if m ≠ "" then m else (get_default_messages kind).getD ""
             | none => (get_default_messages kind).getD "")
            (some ("images/" ++ kind ++ "_" ++ toString chat ++ "_" ++ fname)),
          user_states := clear_state w.user_states user },
       [Out.sendKeyboard chat (image_confirm kind) back_keyboard]) := by
    unfold handle_user_input
    rw [hst]
    dsimp only
    rw [hph]
    dsimp only
    rw [hlast]
    dsimp only
    rw [hfid]
    dsimp only
    rw [if_pos hfid0, hdl]
    dsimp only
    rw [if_pos hbytes]
  rw [hred]
  refine ⟨?_, rfl, by simp [clear_state]⟩
  have harm : (match (get_message w.db chat kind).1 with
      | some m => if m ≠ "" then m else (get_default_messages kind).getD ""
      | none => (get_default_messages kind).getD "") =
      (match (get_message w.db chat kind).1 with
      | some m => if m = "" then dflt else m
      | none => dflt) := by
    rcases (get_message w.db chat kind).1 with _ | m
    · simp [hdflt]
    · by_cases hm : m = "" <;> simp [hm, hdflt]
  rw [show (({ w with
        files := w.files ++ [("images/" ++ kind ++ "_" ++ toString chat ++ "_" ++ fname, bytes)],
        db := set_message w.db chat kind
          (match (get_message w.db chat kind).1 with
           | some m => if m ≠ "" then m else (get_default_messages kind).getD ""
           | none => (get_default_messages kind).getD "")
          (some ("images/" ++ kind ++ "_" ++ toString chat ++ "_" ++ fname)),
        user_states := clear_state w.user_states user } : BotWorld),
      [Out.sendKeyboard chat (image_confirm kind) back_keyboard]).1.db =
      set_message w.db chat kind
        (match (get_message w.db chat kind).1 with
         | some m => if m ≠ "" then m else (get_default_messages kind).getD ""
         | none => (get_default_messages kind).getD "")
        (some ("images/" ++ kind ++ "_" ++ toString chat ++ "_" ++ fname)) from rfl]
  rw [harm]
  exact get_set_same w.db chat kind _ _

set_option maxRecDepth 4096 in
/-- Witness for C6: a stored non-empty template survives an image change. -/
theorem photo_consume_preserves_template_witness :
    get_message
      (handle_user_input
        ⟨fun _ _ => none, fun f => if f = "fid" then some ([7, 8], "pic.jpg") else none,
         fun _ => none, fun _ => false⟩
        ⟨fun v => if v = 9 then some ⟨UserAction.upload_image, "leave", 1⟩ else none,
         [⟨1, "leave", "custom", none⟩], []⟩
        1 9 "" ⟨some 1, some 9, none, none, none, some [⟨some "fid"⟩]⟩).1.db 1 "leave" =
      (some "custom", some "images/leave_1_pic.jpg") := by
  have h := (photo_consume_preserves_template
    ⟨fun _ _ => none, fun f => if f = "fid" then some ([7, 8], "pic.jpg") else none,
     fun _ => none, fun _ => false⟩
    ⟨fun v => if v = 9 then some ⟨UserAction.upload_image, "leave", 1⟩ else none,
     [⟨1, "leave", "custom", none⟩], []⟩
    1 9 1 "leave" "" "fid" "pic.jpg" default_leave
    ⟨some 1, some 9, none, none, none, some [⟨some "fid"⟩]⟩
    [⟨some "fid"⟩] ⟨some "fid"⟩ [7, 8]
    (by decide) (by decide) (by decide) (by decide) (by decide) (by decide) (by decide)
    (by decide)).1
  rw [h]
  decide

set_option maxRecDepth 4096 in
/-- Counterexample for C6 as stated: when the previously stored template
is the empty string (a state the bot itself reaches, cf. C10), the photo
consume does not preserve it — the default template is written instead. -/
theorem photo_consume_empty_template_cex :
    (get_message [⟨(1 : Int), "kick", "", none⟩] 1 "kick").1 = some ""
    ∧ (get_message
        (handle_user_input
          ⟨fun _ _ => none, fun f => if f = "fid" then some ([1], "p.jpg") else none,
           fun _ => none, fun _ => false⟩
          ⟨fun v => if v = 7 then some ⟨UserAction.upload_image, "kick", 1⟩ else none,
           [⟨1, "kick", "", none⟩], []⟩
          1 7 "" ⟨some 1, some 7, none, none, none, some [⟨some "fid"⟩]⟩).1.db 1 "kick").1 =
      some default_kick
    ∧ default_kick ≠ "" := by
  decide

/-- C3 (amended): on a classified membership change whose effective
template (custom when present and non-empty, else the default) formats
successfully — its brace constructs are exactly the escapes and the
placeholder, so `str.format` returns the substituted caption instead of
raising — the notifier puts that caption on every outbound call and
attempts delivery in the fixed order custom image, shared fallback image,
plain text, where an image attempt succeeds only when the gateway
acknowledged it and the plain text is sent only when no image attempt
was acknowledged; the world is unchanged. -/
theorem notifier_delivery (g : Gateway) (w : BotWorld) (upd : MemberUpdate)
    (mt dflt caption : String) (user : TgUser) (chat : Int)
    (hcls : classify_transition upd.old_status upd.new_status upd.until_date = some mt)
    (huser : upd.user = some user) (hchat : upd.chat_id = some chat) (hc0 : chat ≠ 0)
    (hdflt : get_default_messages mt = some dflt)
    (hcapt : pyFormatUsername
      (match (get_message w.db chat mt).1 with
       | some m => if m = "" then dflt else m
       | none => dflt) (resolve_username user) = some caption) :
    (handle_chat_member_update g w upd).1 = w
    ∧ (handle_chat_member_update g w upd).2 =
      (let ci := (get_message w.db chat mt).2.getD ""
       (if ci ≠ "" ∧ g.file_exists ci = true then [Out.sendPhotoOut chat ci caption] else [])
       ++ (if (ci ≠ "" ∧ g.file_exists ci = true) ∧ photo_ok g ci = true then []
           else
             if g.file_exists default_image_path = true then
               if photo_ok g default_image_path = true then
                 [Out.sendPhotoOut chat default_image_path caption]
               else [Out.sendPhotoOut chat default_image_path caption,
                     Out.sendText chat caption]
             else [Out.sendText chat caption])) := by
  have hred : handle_chat_member_update g w upd =
      (w, deliver_farewell g chat (get_message w.db chat mt).2 caption) := by
    unfold handle_chat_member_update
    rw [hcls, huser, hchat]
    dsimp only
    rw [if_neg hc0]
    rcases hcm : (get_message w.db chat mt).1 with _ | m
    · rw [hcm] at hcapt
      dsimp only at hcapt ⊢
      rw [hdflt]
      dsimp only [Option.bind]
      rw [hcapt]
    · rw [hcm] at hcapt
      dsimp only at hcapt ⊢
      by_cases hm : m = ""
      · rw [if_pos hm] at hcapt
        rw [if_neg (by simp [hm]), hdflt]
        dsimp only [Option.bind]
        rw [hcapt]
      · rw [if_neg hm] at hcapt
        rw [if_pos hm, hcapt]
  rw [hred]
  refine ⟨rfl, ?_⟩
  dsimp only
  rcases hci : (get_message w.db chat mt).2 with _ | ci
  · have hfalse : ¬(("" : String) ≠ "" ∧ g.file_exists "" = true) := by simp
    rw [Option.getD_none]
    rw [if_neg hfalse, if_neg (by simp)]
    unfold deliver_farewell deliver_fallback
    simp
  · rw [Option.getD_some]
    unfold deliver_farewell
    dsimp only
    by_cases h1 : ci ≠ "" ∧ g.file_exists ci = true
    · rw [if_pos h1, if_pos h1]
      by_cases h2 : photo_ok g ci = true
      · rw [if_pos h2, if_pos ⟨h1, h2⟩]
        simp
      · rw [if_neg h2, if_neg (by intro hand; exact h2 hand.2)]
        unfold deliver_fallback
        simp
    · rw [if_neg h1, if_neg h1, if_neg (by intro hand; exact h1 hand.1)]
      unfold deliver_fallback
      simp

set_option maxRecDepth 4096 in
/-- Witness for C3: an acknowledged custom image yields one photo send
with the substituted caption and nothing else. -/
theorem notifier_delivery_witness :
    (handle_chat_member_update
      ⟨fun _ _ => none, fun _ => none,
       fun p => if p = "ci.jpg" then some true else none,
       fun p => decide (p = "ci.jpg")⟩
      ⟨fun _ => none, [⟨1, "leave", "hello {username}", some "ci.jpg"⟩], []⟩
      ⟨some "member", some "left", none, some ⟨some "bob", none, none⟩, some 1⟩).2 =
      [Out.sendPhotoOut 1 "ci.jpg" "hello @bob"] := by
  have h := (notifier_delivery
    ⟨fun _ _ => none, fun _ => none,
     fun p => if p = "ci.jpg" then some true else none,
     fun p => decide (p = "ci.jpg")⟩
    ⟨fun _ => none, [⟨1, "leave", "hello {username}", some "ci.jpg"⟩], []⟩
    ⟨some "member", some "left", none, some ⟨some "bob", none, none⟩, some 1⟩
    "leave" default_leave "hello @bob" ⟨some "bob", none, none⟩ 1
    (by decide) rfl rfl (by decide) (by decide) (by decide)).2
  rw [h]
  decide

set_option maxRecDepth 4096 in
/-- Counterexample for C3 as stated, in two parts.  First, with a stored
empty-string template (present, hence "custom if present" would demand
it), the notifier sends a caption built from the default template
instead, so the spec-worded resolution differs from the code's.  Second,
with a stored template `{foo}` the claimed delivery chain never starts:
`custom_message.format(username=…)` raises a KeyError that the blanket
`except` swallows, and nothing at all is sent. -/
theorem notifier_empty_template_cex :
    (handle_chat_member_update
      ⟨fun _ _ => none, fun _ => none, fun _ => none, fun _ => false⟩
      ⟨fun _ => none, [⟨1, "leave", "", none⟩], []⟩
      ⟨some "member", some "left", none, some ⟨some "u", none, none⟩, some 1⟩).2 =
      [Out.sendText 1 ((pyFormatUsername default_leave "@u").getD "")]
    ∧ (pyFormatUsername default_leave "@u").getD "" ≠
        (pyFormatUsername
          (spec_effective_template
            (get_message [⟨(1 : Int), "leave", "", none⟩] 1 "leave").1 default_leave)
          "@u").getD ""
    ∧ (handle_chat_member_update
        ⟨fun _ _ => none, fun _ => none, fun _ => none, fun _ => false⟩
        ⟨fun _ => none, [⟨1, "leave", "{foo}", none⟩], []⟩
        ⟨some "member", some "left", none, some ⟨some "u", none, none⟩, some 1⟩).2 = [] := by
  decide

/-! ## Formatter lemmas for claim C4 -/

/-- The five-way if-chain of the loop body agrees with the abstract
tag-pair insertion. -/
theorem wrapEntity_eq_applyTag (s : List Char) (e : MessageEntity) :
    wrapEntity s e = applyTag (entity_tags e.etype) s e.offset e.length := by
  unfold wrapEntity entity_tags
  split_ifs <;> rfl

/-- Inserting a tag pair never shortens the string. -/
theorem applyTag_length_le (tg : Option (List Char × List Char)) (s : List Char)
    (a b : Nat) : s.length ≤ (applyTag tg s a b).length := by
  cases tg with
  | none => exact le_refl _
  | some oc =>
    rcases oc with ⟨o, c⟩
    simp only [applyTag, List.length_append, List.length_take, List.length_drop]
    omega

/-- A tag insertion entirely inside the left part of an append ignores the
right part. -/
theorem applyTag_append (tg : Option (List Char × List Char)) (u v : List Char)
    (a b : Nat) (h : a + b ≤ u.length) :
    applyTag tg (u ++ v) a b = applyTag tg u a b ++ v := by
  cases tg with
  | none => rfl
  | some oc =>
    rcases oc with ⟨o, c⟩
    simp only [applyTag]
    rw [List.take_append_of_le_length (by omega),
        List.drop_append_of_le_length (by omega : a ≤ u.length),
        List.take_append_of_le_length (by rw [List.length_drop]; omega),
        List.drop_append_of_le_length h]
    simp [List.append_assoc]

/-- A tag insertion at offset `a` keeps the first `a` characters. -/
theorem applyTag_take (tg : Option (List Char × List Char)) (s : List Char)
    (a b : Nat) (ha : a ≤ s.length) :
    (applyTag tg s a b).take a = s.take a := by
  cases tg with
  | none => rfl
  | some oc =>
    rcases oc with ⟨o, c⟩
    have h2 : applyTag (some (o, c)) s a b =
        s.take a ++ (o ++ (s.drop a).take b ++ c ++ s.drop (a + b)) := by
      simp [applyTag, List.append_assoc]
    rw [h2, List.take_append_of_le_length (by rw [List.length_take]; omega),
        List.take_take]
    simp

/-- Equal prefixes of length `k` have equal shorter prefixes. -/
theorem take_le_of_take_eq (t₁ t₂ : List Char) (k n : Nat) (hn : n ≤ k)
    (h : t₁.take k = t₂.take k) : t₁.take n = t₂.take n := by
  have h1 : (t₁.take k).take n = (t₂.take k).take n := by rw [h]
  rw [List.take_take, List.take_take] at h1
  simpa [Nat.min_eq_left hn] using h1

/-- A slice `[a, a+b)` is determined by the prefix of length `k ≥ a+b`. -/
theorem seg_eq_of_take_eq (t₁ t₂ : List Char) (a b k : Nat) (hk : a + b ≤ k)
    (h : t₁.take k = t₂.take k) :
    (t₁.drop a).take b = (t₂.drop a).take b := by
  have h1 : t₁.take (a + b) = t₂.take (a + b) := take_le_of_take_eq t₁ t₂ k (a + b) hk h
  have e1 : ∀ t : List Char, (t.take (a + b)).drop a = (t.drop a).take b := by
    intro t
    rw [List.drop_take]
    congr 1
    omega
  rw [← e1 t₁, ← e1 t₂, h1]

/-- Folding the wrap step over spans that all end at or before `u.length`
ignores an appended suffix. -/
theorem foldl_wrap_append (l : List MessageEntity) : ∀ (u v : List Char),
    (∀ f ∈ l, f.offset + f.length ≤ u.length) →
    List.foldl wrapEntity (u ++ v) l = List.foldl wrapEntity u l ++ v := by
  induction l with
  | nil => intro u v _; rfl
  | cons f t ih =>
    intro u v h
    simp only [List.foldl_cons]
    rw [wrapEntity_eq_applyTag, wrapEntity_eq_applyTag,
        applyTag_append _ _ _ _ _ (h f (List.mem_cons_self f t))]
    exact ih _ v (fun e he =>
      le_trans (h e (List.mem_cons_of_mem f he)) (applyTag_length_le _ _ _ _))

/-- Core of C4: folding the wrap step over a descending-sorted, pairwise
disjoint, in-bounds, positive-length span list leaves each tagged span's
original slice wrapped in its tag pair as one contiguous block of the
result. -/
theorem foldl_wrap_block (l : List MessageEntity) : ∀ (t : List Char),
    l.Pairwise entity_desc →
    l.Pairwise spansDisjoint →
    (∀ e ∈ l, e.offset + e.length ≤ t.length) →
    (∀ e ∈ l, 1 ≤ e.length) →
    ∀ e ∈ l, ∀ o c, entity_tags e.etype = some (o, c) →
    ∃ pre post, List.foldl wrapEntity t l =
      pre ++ (o ++ (t.drop e.offset).take e.length ++ c) ++ post := by
  induction l with
  | nil => intro t _ _ _ _ e he; exact absurd he (List.not_mem_nil e)
  | cons e₀ rest ih =>
    intro t hsort hdisj hval hpos e he o c htags
    have hs := List.pairwise_cons.mp hsort
    have hd := List.pairwise_cons.mp hdisj
    have hb : ∀ f ∈ rest, f.offset + f.length ≤ e₀.offset := by
      intro f hf
      have h1 : f.offset ≤ e₀.offset := hs.1 f hf
      have h3 : 1 ≤ e₀.length := hpos e₀ (List.mem_cons_self e₀ rest)
      rcases hd.1 f hf with h2 | h2
      · omega
      · exact h2
    simp only [List.foldl_cons]
    rcases List.mem_cons.mp he with rfl | hmem
    · have hv : e.offset + e.length ≤ t.length := hval e (List.mem_cons_self e rest)
      have hsplit : wrapEntity t e =
          t.take e.offset ++
            ((o ++ (t.drop e.offset).take e.length ++ c) ++ t.drop (e.offset + e.length)) := by
        rw [wrapEntity_eq_applyTag, htags]
        simp [applyTag, List.append_assoc]
      rw [hsplit,
          foldl_wrap_append rest (t.take e.offset) _
            (fun f hf => by rw [List.length_take]; have := hb f hf; omega)]
      exact ⟨List.foldl wrapEntity (t.take e.offset) rest, t.drop (e.offset + e.length),
        by simp [List.append_assoc]⟩
    · have hkey : (wrapEntity t e₀).take e₀.offset = t.take e₀.offset := by
        rw [wrapEntity_eq_applyTag]
        exact applyTag_take _ _ _ _
          (le_trans (Nat.le_add_right _ _) (hval e₀ (List.mem_cons_self e₀ rest)))
      have hseg : ((wrapEntity t e₀).drop e.offset).take e.length =
          (t.drop e.offset).take e.length :=
        seg_eq_of_take_eq _ _ e.offset e.length e₀.offset (hb e hmem) hkey
      have hval' : ∀ f ∈ rest, f.offset + f.length ≤ (wrapEntity t e₀).length := by
        intro f hf
        refine le_trans (hval f (List.mem_cons_of_mem e₀ hf)) ?_
        rw [wrapEntity_eq_applyTag]
        exact applyTag_length_le _ _ _ _
      obtain ⟨pre, post, hp⟩ := ih (wrapEntity t e₀) hs.2 hd.2 hval'
        (fun f hf => hpos f (List.mem_cons_of_mem e₀ hf)) e hmem o c htags
      exact ⟨pre, post, by rw [hp, hseg]⟩

/-- A list is a prefix of itself followed by anything. -/
theorem isPrefixOf_append_self (l t : List Char) : l.isPrefixOf (l ++ t) = true := by
  induction l with
  | nil => simp [List.isPrefixOf]
  | cons a as ih => simp [List.isPrefixOf, ih]

/-- When the decidable occurrence check fails, no contiguous-split
decomposition exists. -/
theorem not_containsBlock_no_split (block l : List Char)
    (h : containsBlock block l = false) :
    ¬ ∃ pre post, l = pre ++ block ++ post := by
  rintro ⟨pre, post, rfl⟩
  unfold containsBlock at h
  rw [List.any_eq_false] at h
  have hmem : pre.length ∈ List.range ((pre ++ block ++ post).length + 1) := by
    rw [List.mem_range]
    simp only [List.length_append]
    omega
  apply h pre.length hmem
  rw [List.append_assoc, List.drop_left]
  exact isPrefixOf_append_self block post

/-- Non-overlap of spans is a symmetric relation. -/
theorem spansDisjoint_symm : Symmetric spansDisjoint := fun _ _ h => Or.symm h

/-- C4 (amended): for any text and any pairwise non-overlapping, in-bounds
annotation spans of nonzero length, the formatter — processing spans in
descending offset order — leaves each span's original substring wrapped in
its start/end tags as a contiguous block of the output; and a single bold
span covering the whole string yields exactly the input between b-tags. -/
theorem parse_entities_wraps_spans :
    (∀ (text : List Char) (entities : List MessageEntity),
      entities.Pairwise spansDisjoint →
      (∀ e ∈ entities, e.offset + e.length ≤ text.length) →
      (∀ e ∈ entities, 1 ≤ e.length) →
      ∀ e ∈ entities, ∀ o c, entity_tags e.etype = some (o, c) →
      ∃ pre post, parse_message_entities text entities =
        pre ++ (o ++ (text.drop e.offset).take e.length ++ c) ++ post)
    ∧ (∀ text : List Char,
      parse_message_entities text [⟨"bold", 0, text.length⟩] =
        "<b>".data ++ text ++ "</b>".data) := by
  constructor
  · intro text entities hdisj hval hpos e he o c htags
    unfold parse_message_entities
    by_cases hne : entities = []
    · subst hne
      exact absurd he (List.not_mem_nil e)
    · rw [if_neg hne]
      have hperm := List.perm_insertionSort entity_desc entities
      have hsort := List.sorted_insertionSort entity_desc entities
      have hdisj' : (List.insertionSort entity_desc entities).Pairwise spansDisjoint :=
        (hperm.pairwise_iff (fun {_ _} h => spansDisjoint_symm h)).mpr hdisj
      exact foldl_wrap_block _ text hsort hdisj'
        (fun f hf => hval f (hperm.mem_iff.mp hf))
        (fun f hf => hpos f (hperm.mem_iff.mp hf))
        e (hperm.mem_iff.mpr he) o c htags
  · intro text
    unfold parse_message_entities
    rw [if_neg (by simp)]
    show wrapEntity text ⟨"bold", 0, text.length⟩ = "<b>".data ++ text ++ "</b>".data
    simp [wrapEntity, List.take_length, List.drop_length]

/-- Witness for C4 on two disjoint spans of a concrete text. -/
theorem parse_entities_wraps_spans_witness :
    ∃ pre post,
      parse_message_entities "hello world".data [⟨"bold", 0, 5⟩, ⟨"italic", 6, 5⟩] =
        pre ++ ("<i>".data ++ ("hello world".data.drop 6).take 5 ++ "</i>".data) ++ post :=
  parse_entities_wraps_spans.1 "hello world".data [⟨"bold", 0, 5⟩, ⟨"italic", 6, 5⟩]
    (by decide) (by decide) (by decide) ⟨"italic", 6, 5⟩ (by decide)
    "<i>".data "</i>".data (by decide)

/-- Counterexample for C4 as stated: a zero-length span is non-overlapping
with every other span under the interval reading, yet processing it first
(stable descending sort keeps the original order on equal offsets, and the
zero-length span inserts its tag pair at the other span's start) corrupts
the other span's content, so its wrapped substring never appears in the
output. -/
theorem parse_zero_length_span_cex :
    List.Pairwise spansDisjoint [(⟨"bold", 5, 0⟩ : MessageEntity), ⟨"italic", 5, 3⟩]
    ∧ (∀ e ∈ [(⟨"bold", 5, 0⟩ : MessageEntity), ⟨"italic", 5, 3⟩],
        e.offset + e.length ≤ "abcdefghij".data.length)
    ∧ entity_tags "italic" = some ("<i>".data, "</i>".data)
    ∧ parse_message_entities "abcdefghij".data [⟨"bold", 5, 0⟩, ⟨"italic", 5, 3⟩] =
        "abcde<i><b></i></b>fghij".data
    ∧ ¬ ∃ pre post,
        parse_message_entities "abcdefghij".data [⟨"bold", 5, 0⟩, ⟨"italic", 5, 3⟩] =
          pre ++ ("<i>".data ++ ("abcdefghij".data.drop 5).take 3 ++ "</i>".data) ++ post :=
  ⟨by decide, by decide, by decide, by decide,
   not_containsBlock_no_split _ _ (by decide)⟩
